import Mathlib

/-!
Verification of the core analysis-and-alerting pipeline of the
`lambda-log-analyzer` repository (a shallow embedding of
`logAnalyzer.js`, `alertService.js` and the pattern/threshold
configuration of `config.js`).

Modelling conventions:
* JS numbers are modelled as `ℚ` (every numeric literal appearing in the
  program is exactly representable); machine integers / counters as `ℕ`.
* Instants are epoch milliseconds (`ℤ`); the JS runtime renders them as
  ISO strings, which is a bijective presentation we do not re-implement.
* Thrown JS exceptions are modelled with `Except`.
* JS `Map` / plain objects used as dictionaries are association lists.
-/

namespace LogAnalyzer

/-- ASCII lower-casing, the effect `/i` has on the ASCII-only patterns of
`config.js`. -/
def lowerChar (c : Char) : Char :=
  if 'A' ≤ c ∧ c ≤ 'Z' then Char.ofNat (c.toNat + 32) else c

/-- The JS regex character class `\s` (whitespace incl. the Unicode space
separators, written by codepoint). -/
def isWsChar (c : Char) : Bool :=
  c = ' ' || c = '\t' || c = '\n' || c = '\r' || c.toNat = 0x0b || c.toNat = 0x0c ||
  c.toNat = 0xa0 || c.toNat = 0x1680 || (0x2000 ≤ c.toNat && c.toNat ≤ 0x200a) ||
  c.toNat = 0x2028 || c.toNat = 0x2029 || c.toNat = 0x202f || c.toNat = 0x205f ||
  c.toNat = 0x3000 || c.toNat = 0xfeff

/-- The JS regex character class `\d`. -/
def isDigitChar (c : Char) : Bool := '0' ≤ c && c ≤ '9'

/-- The JS regex word-character class `\w`, used by `\b` boundaries. -/
def isWordChar (c : Char) : Bool :=
  ('a' ≤ c && c ≤ 'z') || ('A' ≤ c && c ≤ 'Z') || isDigitChar c || c = '_'

/-- Case-insensitive "starts with": `pat` (given lower-case) is a prefix of
`cs` up to ASCII case. -/
def ciStartsWith : List Char → List Char → Bool
  | [], _ => true
  | _ :: _, [] => false
  | p :: ps, c :: cs => lowerChar c = p && ciStartsWith ps cs

/-- One token of a `config.js` error-pattern regex: a literal run of
characters (matched case-insensitively, stored lower-case) or `\s+`. -/
inductive PatTok where
  | lit : List Char → PatTok
  | wsPlus : PatTok
deriving DecidableEq

/-- An error pattern from `config.errorPatterns`, as its token list. -/
structure Pattern where
  toks : List PatTok
deriving DecidableEq

/-- Match the token list exactly at the head of `cs` (`\s+` is maximal-munch,
which is faithful here because every `\s+` in the configured patterns is
followed by a literal starting with a non-space character). -/
def matchToksFrom : List PatTok → List Char → Bool
  | [], _ => true
  | .lit p :: rest, cs =>
    ciStartsWith p cs && matchToksFrom rest (cs.drop p.length)
  | .wsPlus :: rest, cs =>
    let k := (cs.takeWhile isWsChar).length
    decide (0 < k) && matchToksFrom rest (cs.drop k)

/-- `RegExp.prototype.test`: search for a match at any position (JS scans
start positions left to right; a boolean test only needs "some position"). -/
def testSearch (toks : List PatTok) : List Char → Bool
  | [] => matchToksFrom toks []
  | c :: cs => matchToksFrom toks (c :: cs) || testSearch toks cs

/-- `pattern.test(message)` for one configured pattern. -/
def testPat (p : Pattern) (s : String) : Bool := testSearch p.toks s.data

/-- `config.errorPatterns.some(pattern => pattern.test(message))`
(logAnalyzer.js lines 169 and 207; the spec's `classify`). -/
def classify (message : String) (patterns : List Pattern) : Bool :=
  patterns.any fun p => testPat p message

/-- `config.errorPatterns` from config.js: `/ERROR/i, /FATAL/i, /Exception/i,
/Error:/i, /failed/i, /timeout/i, /500\s+Internal/i, /502\s+Bad\s+Gateway/i,
/503\s+Service\s+Unavailable/i, /504\s+Gateway\s+Timeout/i`. -/
def errorPatterns : List Pattern :=
  [ ⟨[.lit "error".data]⟩,
    ⟨[.lit "fatal".data]⟩,
    ⟨[.lit "exception".data]⟩,
    ⟨[.lit "error:".data]⟩,
    ⟨[.lit "failed".data]⟩,
    ⟨[.lit "timeout".data]⟩,
    ⟨[.lit "500".data, .wsPlus, .lit "internal".data]⟩,
    ⟨[.lit "502".data, .wsPlus, .lit "bad".data, .wsPlus, .lit "gateway".data]⟩,
    ⟨[.lit "503".data, .wsPlus, .lit "service".data, .wsPlus, .lit "unavailable".data]⟩,
    ⟨[.lit "504".data, .wsPlus, .lit "gateway".data, .wsPlus, .lit "timeout".data]⟩ ]

/-- `calculatePercentile(values, percentile)` (logAnalyzer.js 349-353):
`sort ascending; index = Math.ceil((percentile/100)*sorted.length) - 1;
return sorted[index] || 0`.  `sorted[index]` is `undefined` for a negative
or too-large index, and `undefined || 0` and `0 || 0` are both `0`, so the
JS expression equals: 0 off the ends, the element (or 0 where the element
is 0, the same value) inside. -/
def calculatePercentile (values : List ℚ) (percentile : ℚ) : ℚ :=
  let sorted := values.insertionSort (fun a b => a ≤ b)
  let index : ℤ := ⌈percentile / 100 * (sorted.length : ℚ)⌉ - 1
  if index < 0 then 0 else sorted.getD index.toNat 0

/-! ## Metric extraction (`extractMetrics`, logAnalyzer.js 230-258) -/

/-- Value of a run of decimal digits. -/
def digitsToNat (ds : List Char) : ℕ :=
  ds.foldl (fun a c => a * 10 + (c.toNat - 48)) 0

/-- Parse `\d+(?:\.\d+)?` at the head of `cs` (maximal munch, which matches
the regex because the token after the digits is never a digit); the value is
the exact rational (JS `parseFloat` rounds it to a double; every value the
claims touch is exactly representable). -/
def takeNumber (cs : List Char) : Option (ℚ × List Char) :=
  let ds := cs.takeWhile isDigitChar
  if ds.length = 0 then none
  else
    let rest := cs.drop ds.length
    match rest with
    | '.' :: rest2 =>
      let fs := rest2.takeWhile isDigitChar
      if fs.length = 0 then some ((digitsToNat ds : ℚ), rest)
      else some ((digitsToNat ds : ℚ) + (digitsToNat fs : ℚ) / (10 : ℚ) ^ fs.length,
                 rest2.drop fs.length)
    | _ => some ((digitsToNat ds : ℚ), rest)

/-- The regex class `[:\s]`. -/
def isColonWs (c : Char) : Bool := c = ':' || isWsChar c

/-- After a keyword: match `[:\s]+(\d+(?:\.\d+)?)\s*(?:unit|...)` and return
the captured number.  All the character classes involved are pairwise
disjoint from their successors, so maximal munch equals regex backtracking. -/
def matchNumAfterKw (units : List (List Char)) (cs : List Char) : Option ℚ :=
  let sep := (cs.takeWhile isColonWs).length
  if sep = 0 then none
  else
    match takeNumber (cs.drop sep) with
    | none => none
    | some (v, rest) =>
      let rest2 := rest.drop (rest.takeWhile isWsChar).length
      if units.any (fun u => ciStartsWith u rest2) then some v else none

/-- Leftmost match of `(?:kw1|kw2|…)[:\s]+(\d+(?:\.\d+)?)\s*(?:unit|…)` with
case-insensitive keywords; the keyword alternatives of the two metric
regexes start with pairwise distinct letters, so at most one alternative can
match at a position. -/
def findKwNum (kws : List (List Char)) (units : List (List Char)) :
    List Char → Option ℚ
  | [] => none
  | c :: cs =>
    match kws.findSome? (fun kw =>
        if ciStartsWith kw (c :: cs) then matchNumAfterKw units ((c :: cs).drop kw.length)
        else none) with
    | some v => some v
    | none => findKwNum kws units cs

/-- Leftmost match of `\b([1-5]\d{2})\b` (logAnalyzer.js 250), returning the
matched three digits; `prev` is the character before the current position. -/
def statusSearch : Option Char → List Char → Option (List Char)
  | _, [] => none
  | prev, c :: cs =>
    let boundary := match prev with | none => true | some p => !isWordChar p
    if boundary && ('1' ≤ c && c ≤ '5') then
      match cs with
      | d1 :: d2 :: rest =>
        if isDigitChar d1 && isDigitChar d2 &&
            (match rest with | [] => true | r :: _ => !isWordChar r) then
          some [c, d1, d2]
        else statusSearch (some c) cs
      | _ => statusSearch (some c) cs
    else statusSearch (some c) cs

/-- The per-source metrics accumulator.  In JS the `totalEvents` /
`totalLines` field exists only on the corresponding analyzer's object
(`undefined > 0` is `false`, modelled by `Option.getD 0`), and
`responseTimes` / `memoryUsage` / `statusCodes` are created lazily by
`extractMetrics`, which is unobservable (a missing list behaves as `[]`). -/
structure Metrics where
  totalEvents : Option ℕ
  totalLines : Option ℕ
  errorCount : ℕ
  responseTimes : List ℚ
  memoryUsage : List ℚ
  statusCodes : List (String × ℕ)
deriving DecidableEq

/-- `metrics.statusCodes[status] = (metrics.statusCodes[status] || 0) + 1`. -/
def bumpStatus (tbl : List (String × ℕ)) (st : String) : List (String × ℕ) :=
  match tbl.lookup st with
  | some n => tbl.map (fun q => if q.1 = st then (q.1, n + 1) else q)
  | none => tbl ++ [(st, 1)]

/-- `extractMetrics(message, metrics)` (logAnalyzer.js 230-258): three
independent extractions — response time, memory usage, HTTP status code. -/
def extractMetrics (message : String) (metrics : Metrics) : Metrics :=
  let m1 :=
    match findKwNum ["duration".data, "time".data, "elapsed".data]
        ["ms".data, "milliseconds".data] message.data with
    | some v => { metrics with responseTimes := metrics.responseTimes ++ [v] }
    | none => metrics
  let m2 :=
    match findKwNum ["memory".data] ["mb".data, "gb".data, "%".data] message.data with
    | some v => { m1 with memoryUsage := m1.memoryUsage ++ [v] }
    | none => m1
  match statusSearch none message.data with
  | some code => { m2 with statusCodes := bumpStatus m2.statusCodes ⟨code⟩ }
  | none => m2

/-! ## Threshold evaluation (`checkThresholds`, logAnalyzer.js 283-344) -/

/-- The threshold configuration of config.js (`config.thresholds`). -/
structure Thresholds where
  maxErrors : ℤ
  maxAvgResponseTime : ℚ
  maxP95ResponseTime : ℚ
  maxMemoryPercent : ℚ
deriving DecidableEq

/-- The default values of config.js. -/
def defaultThresholds : Thresholds := ⟨10, 5000, 10000, 85⟩

/-- A JS value that is either a number or a string (the `value` field of a
violation is a number for three of the checks and a string for memory). -/
inductive JSValue where
  | num : ℚ → JSValue
  | str : String → JSValue
deriving DecidableEq

/-- A violation record as pushed by `checkThresholds` (the error-count
violation carries no `unit` property). -/
structure Violation where
  metric : String
  value : JSValue
  threshold : ℚ
  comparison : String
  unit : Option String
  source : String
deriving DecidableEq

/-- `values.reduce((a, b) => a + b) / values.length` — only ever called on a
non-empty list. -/
def mean (l : List ℚ) : ℚ := l.sum / l.length

/-- `Math.round`: nearest integer, halves toward +∞. -/
def jsRound (q : ℚ) : ℤ := ⌊q + 1 / 2⌋

/-- `x.toFixed(1)` for the non-negative magnitudes involved: nearest multiple
of 1/10, ties away from zero, rendered with one digit after the point. -/
def toFixed1 (q : ℚ) : String :=
  let n : ℤ := ⌊q * 10 + 1 / 2⌋
  s!"{n / 10}.{n % 10}"

/-- `checkThresholds(metrics, source)` (logAnalyzer.js 283-344), translated
push by push; `config.thresholds` is passed explicitly as `cfg`. -/
def checkThresholds (metrics : Metrics) (source : String) (cfg : Thresholds) :
    List Violation :=
  (if 0 < metrics.totalEvents.getD 0 ∨ 0 < metrics.totalLines.getD 0 then
    if cfg.maxErrors < (metrics.errorCount : ℤ) then
      [⟨"Error Count", .num (metrics.errorCount : ℚ), (cfg.maxErrors : ℚ), "exceeds",
        none, source⟩]
    else []
  else []) ++
  (if 0 < metrics.responseTimes.length then
    let avgResponseTime := mean metrics.responseTimes
    let p95ResponseTime := calculatePercentile metrics.responseTimes 95
    (if cfg.maxAvgResponseTime < avgResponseTime then
      [⟨"Average Response Time", .num (jsRound avgResponseTime : ℚ), cfg.maxAvgResponseTime,
        "exceeds", some "ms", source⟩]
    else []) ++
    (if cfg.maxP95ResponseTime < p95ResponseTime then
      [⟨"P95 Response Time", .num (jsRound p95ResponseTime : ℚ), cfg.maxP95ResponseTime,
        "exceeds", some "ms", source⟩]
    else [])
  else []) ++
  (if 0 < metrics.memoryUsage.length then
    let avgMemory := mean metrics.memoryUsage
    if cfg.maxMemoryPercent < avgMemory then
      [⟨"Memory Usage", .str (toFixed1 avgMemory), cfg.maxMemoryPercent, "exceeds",
        some "%", source⟩]
    else []
  else [])

/-- Spec-side error-count check: evaluated only when at least one record was
processed; fires iff `errorCount > maxErrors`. -/
def errorCountCheck (m : Metrics) (src : String) (cfg : Thresholds) : List Violation :=
  if 0 < m.totalEvents.getD 0 + m.totalLines.getD 0 then
    if cfg.maxErrors < (m.errorCount : ℤ) then
      [⟨"Error Count", .num (m.errorCount : ℚ), (cfg.maxErrors : ℚ), "exceeds", none, src⟩]
    else []
  else []

/-- Spec-side mean response-time check, guarded only by its own samples. -/
def avgResponseCheck (m : Metrics) (src : String) (cfg : Thresholds) : List Violation :=
  if 0 < m.responseTimes.length then
    if cfg.maxAvgResponseTime < mean m.responseTimes then
      [⟨"Average Response Time", .num (jsRound (mean m.responseTimes) : ℚ),
        cfg.maxAvgResponseTime, "exceeds", some "ms", src⟩]
    else []
  else []

/-- Spec-side p95 response-time check, guarded only by its own samples and
firing independently of the mean check. -/
def p95ResponseCheck (m : Metrics) (src : String) (cfg : Thresholds) : List Violation :=
  if 0 < m.responseTimes.length then
    if cfg.maxP95ResponseTime < calculatePercentile m.responseTimes 95 then
      [⟨"P95 Response Time", .num (jsRound (calculatePercentile m.responseTimes 95) : ℚ),
        cfg.maxP95ResponseTime, "exceeds", some "ms", src⟩]
    else []
  else []

/-- Spec-side memory check: fires iff the arithmetic mean of the memory
samples exceeds `maxMemoryPercent`. -/
def memoryCheck (m : Metrics) (src : String) (cfg : Thresholds) : List Violation :=
  if 0 < m.memoryUsage.length then
    if cfg.maxMemoryPercent < mean m.memoryUsage then
      [⟨"Memory Usage", .str (toFixed1 (mean m.memoryUsage)), cfg.maxMemoryPercent,
        "exceeds", some "%", src⟩]
    else []
  else []

/-! ## Timestamp extraction (`extractTimestamp`, logAnalyzer.js 263-278) -/

/-- Exactly `n` decimal digits (`\d{n}`). -/
def takeDigitsN (n : ℕ) (cs : List Char) : Option (ℕ × List Char) :=
  let pre := cs.take n
  if pre.length = n && pre.all isDigitChar then some (digitsToNat pre, cs.drop n)
  else none

/-- A single literal character. -/
def expectChar (c : Char) : List Char → Option (List Char)
  | [] => none
  | x :: xs => if x = c then some xs else none

/-- Zone designator of a matched timestamp. -/
inductive Zone where
  | noZone : Zone
  | utcZ : Zone
  | eastOff : Bool → ℕ → ℕ → Zone  -- (negative?, hours, minutes)
deriving DecidableEq

/-- The components captured by one of the three timestamp regexes. -/
structure TSComps where
  year : ℕ
  month : ℕ
  day : ℕ
  hour : ℕ
  minute : ℕ
  second : ℕ
  msec : ℕ
  zone : Zone
  isoT : Bool  -- matched by the first pattern with a literal `T` separator
deriving DecidableEq

/-- First pattern
`(\d{4}-\d{2}-\d{2}[T\s]\d{2}:\d{2}:\d{2}(?:\.\d{3})?(?:Z|[+-]\d{2}:\d{2})?)`
matched at the head of `cs`; the two optional groups are skipped when they
cannot match, as the regex does. -/
def matchIsoAt (cs : List Char) : Option TSComps := do
  let (y, cs) ← takeDigitsN 4 cs
  let cs ← expectChar '-' cs
  let (mo, cs) ← takeDigitsN 2 cs
  let cs ← expectChar '-' cs
  let (d, cs) ← takeDigitsN 2 cs
  match cs with
  | [] => none
  | sep :: cs =>
    if sep = 'T' || isWsChar sep then do
      let (h, cs) ← takeDigitsN 2 cs
      let cs ← expectChar ':' cs
      let (mi, cs) ← takeDigitsN 2 cs
      let cs ← expectChar ':' cs
      let (s, cs) ← takeDigitsN 2 cs
      let (ms, cs) :=
        match cs with
        | '.' :: cs2 =>
          match takeDigitsN 3 cs2 with
          | some (f, cs3) => (f, cs3)
          | none => (0, cs)
        | _ => (0, cs)
      let zone : Zone :=
        match cs with
        | 'Z' :: _ => .utcZ
        | c :: cs2 =>
          if c = '+' || c = '-' then
            match takeDigitsN 2 cs2 with
            | some (oh, cs3) =>
              match expectChar ':' cs3 with
              | some cs4 =>
                match takeDigitsN 2 cs4 with
                | some (om, _) => .eastOff (c = '-') oh om
                | none => .noZone
              | none => .noZone
            | none => .noZone
          else .noZone
        | [] => .noZone
      pure ⟨y, mo, d, h, mi, s, ms, zone, sep = 'T'⟩
    else none

/-- Second pattern `(\d{2}\/\d{2}\/\d{4}\s+\d{2}:\d{2}:\d{2})` (US order
`MM/DD/YYYY`) matched at the head of `cs`. -/
def matchUsAt (cs : List Char) : Option TSComps := do
  let (mo, cs) ← takeDigitsN 2 cs
  let cs ← expectChar '/' cs
  let (d, cs) ← takeDigitsN 2 cs
  let cs ← expectChar '/' cs
  let (y, cs) ← takeDigitsN 4 cs
  let w := (cs.takeWhile isWsChar).length
  if w = 0 then none
  else do
    let cs := cs.drop w
    let (h, cs) ← takeDigitsN 2 cs
    let cs ← expectChar ':' cs
    let (mi, cs) ← takeDigitsN 2 cs
    let cs ← expectChar ':' cs
    let (s, _) ← takeDigitsN 2 cs
    pure ⟨y, mo, d, h, mi, s, 0, .noZone, false⟩

/-- Third pattern `(\d{4}\/\d{2}\/\d{2}\s+\d{2}:\d{2}:\d{2})` matched at the
head of `cs`. -/
def matchYmdAt (cs : List Char) : Option TSComps := do
  let (y, cs) ← takeDigitsN 4 cs
  let cs ← expectChar '/' cs
  let (mo, cs) ← takeDigitsN 2 cs
  let cs ← expectChar '/' cs
  let (d, cs) ← takeDigitsN 2 cs
  let w := (cs.takeWhile isWsChar).length
  if w = 0 then none
  else do
    let cs := cs.drop w
    let (h, cs) ← takeDigitsN 2 cs
    let cs ← expectChar ':' cs
    let (mi, cs) ← takeDigitsN 2 cs
    let cs ← expectChar ':' cs
    let (s, _) ← takeDigitsN 2 cs
    pure ⟨y, mo, d, h, mi, s, 0, .noZone, false⟩

/-- Leftmost occurrence: `line.match(pattern)` tries every start position
from the left. -/
def findAt (f : List Char → Option TSComps) : List Char → Option TSComps
  | [] => f []
  | c :: cs =>
    match f (c :: cs) with
    | some t => some t
    | none => findAt f cs

/-- The `for (const pattern of patterns)` loop: patterns tried in order,
each searched over the whole line. -/
def extractTimestampMatch (cs : List Char) : Option TSComps :=
  match findAt matchIsoAt cs with
  | some t => some t
  | none =>
    match findAt matchUsAt cs with
    | some t => some t
    | none => findAt matchYmdAt cs

def isLeapYear (y : ℕ) : Bool :=
  decide ((y % 4 = 0 ∧ y % 100 ≠ 0) ∨ y % 400 = 0)

def daysInMonth (y m : ℕ) : ℕ :=
  if m = 2 then (if isLeapYear y then 29 else 28)
  else if m = 4 ∨ m = 6 ∨ m = 9 ∨ m = 11 then 30 else 31

/-- Validity of a matched substring as a JS `Date`.  Modelled from the JS
runtime (not repository code): the component ranges both the ES ISO parser
and the V8 fallback parser require — month 1..12, day within the month,
time components in range (`24:00:00.000` accepted in the ISO form), and a
zone offset of at most 23:59. -/
def zoneValid : Zone → Bool
  | .noZone => true
  | .utcZ => true
  | .eastOff _ oh om => decide (oh ≤ 23 ∧ om ≤ 59)

def validTS (t : TSComps) : Bool :=
  decide (1 ≤ t.month ∧ t.month ≤ 12 ∧ 1 ≤ t.day ∧ t.day ≤ daysInMonth t.year t.month ∧
    (t.hour ≤ 23 ∨ (t.isoT = true ∧ t.hour = 24 ∧ t.minute = 0 ∧ t.second = 0 ∧ t.msec = 0)) ∧
    t.minute ≤ 59 ∧ t.second ≤ 59 ∧ zoneValid t.zone = true)

/-- Days from 1970-01-01 to the given civil date (standard civil-from-days
inverse; all divisions act on non-negative values for 4-digit years). -/
def daysFromCivil (y m d : ℕ) : ℤ :=
  let y' : ℤ := if m ≤ 2 then (y : ℤ) - 1 else (y : ℤ)
  let era : ℤ := y' / 400
  let yoe : ℤ := y' - era * 400
  let mp : ℤ := if 2 < m then (m : ℤ) - 3 else (m : ℤ) + 9
  let doy : ℤ := (153 * mp + 2) / 5 + (d : ℤ) - 1
  let doe : ℤ := yoe * 365 + yoe / 4 - yoe / 100 + doy
  era * 146097 + doe - 719468

/-- Epoch milliseconds of a valid matched timestamp.  Zone-less forms are
interpreted in the host zone by JS; the host clock is modelled as UTC (the
deployment target runs with `TZ=UTC`). -/
def epochMsOf (t : TSComps) : ℤ :=
  let zoneMin : ℤ :=
    match t.zone with
    | .noZone => 0
    | .utcZ => 0
    | .eastOff neg oh om => (if neg then -1 else 1) * ((oh : ℤ) * 60 + (om : ℤ))
  daysFromCivil t.year t.month t.day * 86400000 +
    (t.hour : ℤ) * 3600000 + (t.minute : ℤ) * 60000 + (t.second : ℤ) * 1000 +
    (t.msec : ℤ) - zoneMin * 60000

/-- `extractTimestamp(line)` (logAnalyzer.js 263-278).  The source computes
`new Date(match[1]).toISOString()`: when the matched substring is not a
valid date, `new Date` yields an Invalid Date and `toISOString()` throws a
`RangeError`, modelled as `.error ()`; `return null` is `.ok none`; a
successful parse returns the normalized instant (epoch milliseconds rather
than its ISO rendering). -/
def extractTimestamp (line : String) : Except Unit (Option ℤ) :=
  match extractTimestampMatch line.data with
  | none => .ok none
  | some t => if validTS t then .ok (some (epochMsOf t)) else .error ()

/-! ## Batch analysis (`processLogEvents` 152-188, `processLogLines` 193-225) -/

/-- A CloudWatch log event `{timestamp, message}`. -/
structure LogEvent where
  timestamp : ℤ
  message : String
deriving DecidableEq

/-- An error record pushed by `processLogEvents`. -/
structure CWError where
  timestamp : ℤ
  logGroup : String
  message : String
  source : String
deriving DecidableEq

/-- An error record pushed by `processLogLines`. -/
structure S3Error where
  timestamp : ℤ
  source : String
  message : String
deriving DecidableEq

structure EventResults where
  errors : List CWError
  metrics : Metrics
  violations : List Violation
deriving DecidableEq

structure LineResults where
  errors : List S3Error
  metrics : Metrics
  violations : List Violation
deriving DecidableEq

/-- `message.substring(0, 500)` — "Truncate long messages". -/
def truncate500 (s : String) : String := ⟨s.data.take 500⟩

/-- Body of the `events.forEach` loop of `processLogEvents`. -/
def processEventsStep (logGroup : String) (acc : List CWError × Metrics)
    (e : LogEvent) : List CWError × Metrics :=
  let isError := classify e.message errorPatterns
  let errs :=
    if isError then acc.1 ++ [⟨e.timestamp, logGroup, truncate500 e.message, "cloudwatch"⟩]
    else acc.1
  let m := if isError then { acc.2 with errorCount := acc.2.errorCount + 1 } else acc.2
  (errs, extractMetrics e.message m)

/-- `processLogEvents(events, logGroup)` (logAnalyzer.js 152-188);
`config.thresholds` is passed explicitly as `cfg`. -/
def processLogEvents (events : List LogEvent) (logGroup : String)
    (cfg : Thresholds) : EventResults :=
  let init : Metrics := ⟨some events.length, none, 0, [], [], []⟩
  let r := events.foldl (processEventsStep logGroup) ([], init)
  ⟨r.1, r.2, checkThresholds r.2 logGroup cfg⟩

/-- Body of the `lines.forEach` loop of `processLogLines`; the loop throws
(propagating out of the method) when `extractTimestamp` throws, and
`extractTimestamp(line) || new Date().toISOString()` falls back to the
current time `now` when the extractor returns null. -/
def processLinesStep (source : String) (now : ℤ) (acc : List S3Error × Metrics)
    (line : String) : Except Unit (List S3Error × Metrics) :=
  let isError := classify line errorPatterns
  if isError then
    match extractTimestamp line with
    | .error e => .error e
    | .ok ts =>
      .ok (acc.1 ++ [⟨ts.getD now, source, truncate500 line⟩],
           extractMetrics line { acc.2 with errorCount := acc.2.errorCount + 1 })
  else .ok (acc.1, extractMetrics line acc.2)

/-- `processLogLines(lines, source)` (logAnalyzer.js 193-225). -/
def processLogLines (lines : List String) (source : String) (cfg : Thresholds)
    (now : ℤ) : Except Unit LineResults :=
  let init : Metrics := ⟨none, some lines.length, 0, [], [], []⟩
  match lines.foldlM (processLinesStep source now) ([], init) with
  | .error e => .error e
  | .ok r => .ok ⟨r.1, r.2, checkThresholds r.2 source cfg⟩

/-! ## Alert coordination (`alertService.js`) -/

/-- `this.lastAlertTimes` — a `Map` from alert type to the `Date.now()` of
the last recorded alert, modelled as an association list read through
`lookup`. -/
structure AlertServiceState where
  lastAlertTimes : List (String × ℤ)
deriving DecidableEq

/-- `isInCooldown(alertType)` (alertService.js): absent entry returns false;
`if (!lastAlertTime) return false` is also taken by the number `0` (an
entry stamped exactly at the epoch), hence the explicit `= 0` test;
otherwise true iff strictly less than `cooldownMinutes` (converted to ms)
has elapsed. -/
def isInCooldown (cooldownMinutes now : ℤ) (st : AlertServiceState)
    (alertType : String) : Bool :=
  match st.lastAlertTimes.lookup alertType with
  | none => false
  | some lastAlertTime =>
    if lastAlertTime = 0 then false
    else decide (now - lastAlertTime < cooldownMinutes * 60 * 1000)

/-- `recordAlert(alertType)`: `this.lastAlertTimes.set(alertType, Date.now())`.
`Map.set` replaces the binding; its position in the map is unobservable
(the map is only ever read through `get`). -/
def recordAlert (now : ℤ) (st : AlertServiceState) (alertType : String) :
    AlertServiceState :=
  ⟨(alertType, now) :: st.lastAlertTimes.filter (fun q => q.1 != alertType)⟩

/-- `sendAlert(alertData, alertType, severity)` (alertService.js 186-209):
skip silently when in cooldown; otherwise send SNS then email, recording the
cooldown only after both transports succeeded; a transport failure is
rethrown (`throw error`) with the state untouched.  The two transports are
external collaborators, modelled by their success booleans; the error value
names the failing transport and carries the state at the throw. -/
def sendAlert (cooldownMinutes now : ℤ) (snsOk emailOk : Bool)
    (st : AlertServiceState) (alertType : String) :
    Except (String × AlertServiceState) AlertServiceState :=
  if isInCooldown cooldownMinutes now st alertType then .ok st
  else if !snsOk then .error ("sns", st)
  else if !emailOk then .error ("email", st)
  else .ok (recordAlert now st alertType)

/-- Modelled from the claim's words (C2): nearest-rank percentile whose
index is *clamped to the valid range* before the lookup. -/
def calculatePercentileClamped (values : List ℚ) (percentile : ℚ) : ℚ :=
  let sorted := values.insertionSort (fun a b => a ≤ b)
  if sorted.length = 0 then 0
  else
    let index : ℤ := ⌈percentile / 100 * (sorted.length : ℚ)⌉ - 1
    let clamped : ℤ := max 0 (min index ((sorted.length : ℤ) - 1))
    sorted.getD clamped.toNat 0

/-! ## Auxiliary lemmas -/

theorem calculatePercentile_at_zero (values : List ℚ) :
    calculatePercentile values 0 = 0 := by
  simp [calculatePercentile]

theorem percentileIndex_bounds (n : ℕ) (p : ℚ) (hn : 0 < n) (hp0 : 0 < p)
    (hp1 : p ≤ 100) :
    0 ≤ ⌈p / 100 * (n : ℚ)⌉ - 1 ∧ ⌈p / 100 * (n : ℚ)⌉ - 1 ≤ (n : ℤ) - 1 := by
  have hnq : (0 : ℚ) < (n : ℚ) := by exact_mod_cast hn
  have h1 : (1 : ℤ) ≤ ⌈p / 100 * (n : ℚ)⌉ := by
    rw [Int.one_le_ceil_iff]
    exact mul_pos (div_pos hp0 (by norm_num)) hnq
  have h2 : ⌈p / 100 * (n : ℚ)⌉ ≤ (n : ℤ) := by
    rw [Int.ceil_le]
    push_cast
    have hle : p / 100 ≤ 1 := (div_le_one (by norm_num : (0 : ℚ) < 100)).2 hp1
    calc p / 100 * (n : ℚ) ≤ 1 * (n : ℚ) :=
          mul_le_mul_of_nonneg_right hle (le_of_lt hnq)
      _ = (n : ℚ) := one_mul _
  omega

theorem calculatePercentile_eq_getD (values : List ℚ) (p : ℚ) (hp0 : 0 < p)
    (hp1 : p ≤ 100) (hne : values ≠ []) :
    calculatePercentile values p =
      (values.insertionSort (fun a b => a ≤ b)).getD
        (⌈p / 100 * (values.length : ℚ)⌉ - 1).toNat 0 ∧
    (⌈p / 100 * (values.length : ℚ)⌉ - 1).toNat < values.length := by
  have hn : 0 < values.length := List.length_pos.2 hne
  have hlen : (values.insertionSort (fun a b => a ≤ b)).length = values.length :=
    List.length_insertionSort _ _
  obtain ⟨hlo, hhi⟩ := percentileIndex_bounds values.length p hn hp0 hp1
  refine ⟨?_, by omega⟩
  unfold calculatePercentile
  simp only [hlen]
  rw [if_neg (by omega)]

theorem calculatePercentile_nonneg (values : List ℚ)
    (hnn : ∀ x ∈ values, 0 ≤ x) (p : ℚ) : 0 ≤ calculatePercentile values p := by
  unfold calculatePercentile
  set s := values.insertionSort (fun a b => a ≤ b) with hs
  set idx : ℤ := ⌈p / 100 * (s.length : ℚ)⌉ - 1 with hidx
  by_cases h : idx < 0
  · rw [if_pos h]
  · rw [if_neg h]
    by_cases h2 : idx.toNat < s.length
    · rw [List.getD_eq_getElem _ _ h2]
      exact hnn _ ((List.mem_insertionSort _).1 (List.getElem_mem h2))
    · rw [List.getD_eq_default _ _ (le_of_not_lt h2)]

theorem calculatePercentile_100_is_max (values : List ℚ) (hne : values ≠ []) :
    calculatePercentile values 100 ∈ values ∧
      ∀ x ∈ values, x ≤ calculatePercentile values 100 := by
  obtain ⟨heq, hlt⟩ := calculatePercentile_eq_getD values 100 (by norm_num) le_rfl hne
  have hlen : (values.insertionSort (fun a b => a ≤ b)).length = values.length :=
    List.length_insertionSort _ _
  have hsort : List.Sorted (fun a b : ℚ => a ≤ b)
      (values.insertionSort (fun a b => a ≤ b)) := List.sorted_insertionSort _ _
  have hlt' : (⌈(100 : ℚ) / 100 * (values.length : ℚ)⌉ - 1).toNat <
      (values.insertionSort (fun a b => a ≤ b)).length := by omega
  rw [heq, List.getD_eq_getElem _ _ hlt']
  constructor
  · exact (List.mem_insertionSort _).1 (List.getElem_mem hlt')
  · intro x hx
    obtain ⟨j, hj, rfl⟩ := List.getElem_of_mem ((List.mem_insertionSort
      (r := fun a b : ℚ => a ≤ b)).2 hx)
    have hidx : ⌈(100 : ℚ) / 100 * (values.length : ℚ)⌉ = (values.length : ℤ) := by
      norm_num
    have hj' : j ≤ (⌈(100 : ℚ) / 100 * (values.length : ℚ)⌉ - 1).toNat := by omega
    have := hsort.rel_get_of_le (a := ⟨j, hj⟩) (b := ⟨_, hlt'⟩) hj'
    simpa [List.get_eq_getElem] using this

theorem calcPercentile_ten_50 :
    calculatePercentile [100, 200, 300, 400, 500, 600, 700, 800, 900, 1000] 50 = 500 := by
  norm_num [calculatePercentile, List.insertionSort, List.orderedInsert]
  decide

theorem calcPercentile_ten_95 :
    calculatePercentile [100, 200, 300, 400, 500, 600, 700, 800, 900, 1000] 95 = 1000 := by
  have h : (⌈(19 : ℚ) / 2⌉ : ℤ) = 10 := by rw [Int.ceil_eq_iff] ; norm_num
  norm_num [calculatePercentile, List.insertionSort, List.orderedInsert, h]
  decide

theorem calcPercentile_ten_99 :
    calculatePercentile [100, 200, 300, 400, 500, 600, 700, 800, 900, 1000] 99 = 1000 := by
  have h : (⌈(99 : ℚ) / 10⌉ : ℤ) = 10 := by rw [Int.ceil_eq_iff] ; norm_num
  norm_num [calculatePercentile, List.insertionSort, List.orderedInsert, h]
  decide

/-- Claim C2 counterexample: at `p = 0` on the ten-sample sequence the code
returns the `|| 0` fallback (the index is `-1`, not clamped into range),
while the claimed clamping behavior would return the smallest sample 100. -/
theorem calculatePercentile_p0_counterexample :
    calculatePercentile [100, 200, 300, 400, 500, 600, 700, 800, 900, 1000] 0 = 0 ∧
    calculatePercentileClamped [100, 200, 300, 400, 500, 600, 700, 800, 900, 1000] 0 = 100 ∧
    (0 : ℚ) ≠ 100 := by
  refine ⟨calculatePercentile_at_zero _, ?_, by norm_num⟩
  norm_num [calculatePercentileClamped, List.insertionSort, List.orderedInsert]

/-- Claim C2 (amended): `calculatePercentile` sorts ascending and returns the
element at index `⌈p/100·count⌉ - 1` for every `p` in `(0, 100]` (where that
index already lies in range, so it agrees with the claimed clamping
behavior); there is no clamping: at `p = 0` the index is `-1` and the
`|| 0` fallback returns 0 regardless of the samples; the result is 0 on the
empty sequence; and on `[100,…,1000]` the result is 500 at `p = 50` and
1000 at `p = 95` and `p = 99`. -/
theorem calculatePercentile_spec (values : List ℚ) (p : ℚ) (hp0 : 0 < p)
    (hp1 : p ≤ 100) :
    calculatePercentile values p = calculatePercentileClamped values p ∧
    calculatePercentile values 0 = 0 ∧
    calculatePercentile [] p = 0 ∧
    calculatePercentile [100, 200, 300, 400, 500, 600, 700, 800, 900, 1000] 50 = 500 ∧
    calculatePercentile [100, 200, 300, 400, 500, 600, 700, 800, 900, 1000] 95 = 1000 ∧
    calculatePercentile [100, 200, 300, 400, 500, 600, 700, 800, 900, 1000] 99 = 1000 := by
  refine ⟨?_, calculatePercentile_at_zero _, by simp [calculatePercentile],
    calcPercentile_ten_50, calcPercentile_ten_95, calcPercentile_ten_99⟩
  by_cases hv : values = []
  · subst hv
    simp [calculatePercentile, calculatePercentileClamped]
  · have hn : 0 < values.length := List.length_pos.2 hv
    have hlen : (values.insertionSort (fun a b => a ≤ b)).length = values.length :=
      List.length_insertionSort _ _
    obtain ⟨hlo, hhi⟩ := percentileIndex_bounds values.length p hn hp0 hp1
    obtain ⟨heq, _⟩ := calculatePercentile_eq_getD values p hp0 hp1 hv
    rw [heq]
    unfold calculatePercentileClamped
    simp only [hlen]
    rw [if_neg (by omega)]
    congr 1
    rw [min_eq_left (by omega), max_eq_right (by omega)]

/-- Witness for `calculatePercentile_spec` at `values = [100,…,1000]`,
`p = 50`. -/
theorem calculatePercentile_spec_witness :
    calculatePercentile [100, 200, 300, 400, 500, 600, 700, 800, 900, 1000] 50 =
      calculatePercentileClamped [100, 200, 300, 400, 500, 600, 700, 800, 900, 1000] 50 :=
  (calculatePercentile_spec [100, 200, 300, 400, 500, 600, 700, 800, 900, 1000] 50
    (by norm_num) (by norm_num)).1

/-- Claim C3: on every non-empty sequence of (non-negative) samples, the
100th percentile is the maximum sample, and the percentile is non-decreasing
in `p` on `[0, 100]`. -/
theorem calculatePercentile_max_and_monotone (values : List ℚ) (p1 p2 : ℚ)
    (hne : values ≠ []) (hnn : ∀ x ∈ values, 0 ≤ x) (h0 : 0 ≤ p1)
    (h12 : p1 ≤ p2) (h2 : p2 ≤ 100) :
    (calculatePercentile values 100 ∈ values ∧
      ∀ x ∈ values, x ≤ calculatePercentile values 100) ∧
    calculatePercentile values p1 ≤ calculatePercentile values p2 := by
  refine ⟨calculatePercentile_100_is_max values hne, ?_⟩
  rcases eq_or_lt_of_le h0 with h | h
  · rw [← h, calculatePercentile_at_zero]
    exact calculatePercentile_nonneg values hnn p2
  · have hp2 : 0 < p2 := lt_of_lt_of_le h h12
    have hp1le : p1 ≤ 100 := le_trans h12 h2
    obtain ⟨e1, b1⟩ := calculatePercentile_eq_getD values p1 h hp1le hne
    obtain ⟨e2, b2⟩ := calculatePercentile_eq_getD values p2 hp2 h2 hne
    have hlen : (values.insertionSort (fun a b => a ≤ b)).length = values.length :=
      List.length_insertionSort _ _
    have hsort : List.Sorted (fun a b : ℚ => a ≤ b)
        (values.insertionSort (fun a b => a ≤ b)) := List.sorted_insertionSort _ _
    have hmono : ⌈p1 / 100 * (values.length : ℚ)⌉ ≤ ⌈p2 / 100 * (values.length : ℚ)⌉ := by
      apply Int.ceil_mono
      have : p1 / 100 ≤ p2 / 100 :=
        (div_le_div_iff_of_pos_right (by norm_num : (0 : ℚ) < 100)).2 h12
      exact mul_le_mul_of_nonneg_right this (by positivity)
    rw [e1, e2, List.getD_eq_getElem _ _ (by omega),
      List.getD_eq_getElem _ _ (by omega)]
    have := hsort.rel_get_of_le
      (a := ⟨(⌈p1 / 100 * (values.length : ℚ)⌉ - 1).toNat, by omega⟩)
      (b := ⟨(⌈p2 / 100 * (values.length : ℚ)⌉ - 1).toNat, by omega⟩)
      (by simp only [Fin.mk_le_mk]; omega)
    simpa [List.get_eq_getElem] using this

/-- Witness for `calculatePercentile_max_and_monotone` at
`values = [100, 200]`, `p1 = 50`, `p2 = 95`. -/
theorem calculatePercentile_max_and_monotone_witness :
    (calculatePercentile [100, 200] 100 ∈ [(100 : ℚ), 200] ∧
      ∀ x ∈ [(100 : ℚ), 200], x ≤ calculatePercentile [100, 200] 100) ∧
    calculatePercentile [100, 200] 50 ≤ calculatePercentile [100, 200] 95 :=
  calculatePercentile_max_and_monotone [100, 200] 50 95 (by simp)
    (by norm_num) (by norm_num) (by norm_num) (by norm_num)

/-- Claim C1: the spec requires the timestamp extractor to yield absent and
never raise when a matched substring is not a valid date, but the code
reaches `new Date(match[1]).toISOString()` and the `toISOString` call throws
a `RangeError` on the Invalid Date: here `13/45/2023 99:99:99` matches the
`MM/DD/YYYY HH:MM:SS` pattern yet has no month 13, so the call throws
(first conjunct).  Valid matched timestamps are normalized (second and third
conjuncts), and a line with no match yields absent (fourth conjunct). -/
theorem extractTimestamp_matched_invalid_throws :
    extractTimestamp "13/45/2023 99:99:99" = .error () ∧
    extractTimestamp "2023-12-01T10:30:00.123Z [ERROR] Something went wrong" =
      .ok (some 1701426600123) ∧
    extractTimestamp "2023/12/01 10:30:00 [INFO] Process started" =
      .ok (some 1701426600000) ∧
    extractTimestamp "INFO no timestamp in this line" = .ok none :=
  ⟨rfl, rfl, rfl, rfl⟩

/-- Claim C4: `checkThresholds` is exactly the concatenation, in the fixed
order error count, average response time, p95 response time, memory, of four
independent checks — the error-count check guarded by "at least one record
was processed" and firing iff `errorCount > maxErrors`, the two
response-time checks each guarded only by non-emptiness of the
response-time samples and firing independently against their own
thresholds, and the memory check guarded by non-emptiness of the memory
samples and firing iff the arithmetic mean exceeds `maxMemoryPercent`. -/
theorem checkThresholds_spec (m : Metrics) (src : String) (cfg : Thresholds) :
    checkThresholds m src cfg =
      errorCountCheck m src cfg ++ avgResponseCheck m src cfg ++
        p95ResponseCheck m src cfg ++ memoryCheck m src cfg := by
  unfold checkThresholds errorCountCheck avgResponseCheck p95ResponseCheck memoryCheck
  have hc : (0 < m.totalEvents.getD 0 ∨ 0 < m.totalLines.getD 0) ↔
      0 < m.totalEvents.getD 0 + m.totalLines.getD 0 := by omega
  rw [if_congr hc rfl rfl]
  by_cases h1 : 0 < m.responseTimes.length
  · simp only [if_pos h1, List.append_assoc]
  · simp only [if_neg h1, List.nil_append, List.append_nil, List.append_assoc]

/-- Claim C10: in every violation produced by `checkThresholds`, the Memory
Usage `value` is the `toFixed(1)` decimal *string* of the mean memory
sample (never a number), the Average and P95 Response Time values are
numbers rounded to the nearest integer by `Math.round`, and the Error Count
value is the exact integer count. -/
theorem violation_value_forms (m : Metrics) (src : String) (cfg : Thresholds)
    (v : Violation) (hv : v ∈ checkThresholds m src cfg) :
    (v.metric = "Memory Usage" →
      v.value = .str (toFixed1 (mean m.memoryUsage)) ∧ ∀ q : ℚ, v.value ≠ .num q) ∧
    (v.metric = "Average Response Time" →
      v.value = .num (jsRound (mean m.responseTimes) : ℚ)) ∧
    (v.metric = "P95 Response Time" →
      v.value = .num (jsRound (calculatePercentile m.responseTimes 95) : ℚ)) ∧
    (v.metric = "Error Count" → v.value = .num (m.errorCount : ℚ)) := by
  unfold checkThresholds at hv
  simp only [List.mem_append] at hv
  rcases hv with (hv | hv) | hv
  · split at hv
    · split at hv
      · rw [List.mem_singleton] at hv
        subst hv
        refine ⟨fun h => ?_, fun h => ?_, fun h => ?_, fun _ => rfl⟩ <;> simp at h
      · simp at hv
    · simp at hv
  · split at hv
    · rw [List.mem_append] at hv
      rcases hv with hv | hv
      · split at hv
        · rw [List.mem_singleton] at hv
          subst hv
          refine ⟨fun h => ?_, fun _ => rfl, fun h => ?_, fun h => ?_⟩ <;> simp at h
        · simp at hv
      · split at hv
        · rw [List.mem_singleton] at hv
          subst hv
          refine ⟨fun h => ?_, fun h => ?_, fun _ => rfl, fun h => ?_⟩ <;> simp at h
        · simp at hv
    · simp at hv
  · split at hv
    · split at hv
      · rw [List.mem_singleton] at hv
        subst hv
        refine ⟨fun _ => ⟨rfl, fun q => by simp⟩, fun h => ?_, fun h => ?_,
          fun h => ?_⟩ <;> simp at h
      · simp at hv
    · simp at hv

/-- Evaluation of `checkThresholds` at the spec's own threshold scenario
(`totalEvents = 100`, `errorCount = 15`, memory samples `[90, 95, 88]`,
default thresholds). -/
theorem checkThresholds_scenario :
    checkThresholds ⟨some 100, none, 15, [], [90, 95, 88], []⟩ "test-source"
        defaultThresholds =
      [⟨"Error Count", .num 15, 10, "exceeds", none, "test-source"⟩,
       ⟨"Memory Usage", .str (toFixed1 (mean [(90 : ℚ), 95, 88])), 85, "exceeds",
        some "%", "test-source"⟩] := by
  norm_num [checkThresholds, mean, defaultThresholds]

/-- Witness for `violation_value_forms`: the Memory Usage violation of the
scenario above carries the `toFixed(1)` string of the mean, not a number. -/
theorem violation_value_forms_witness :
    (⟨"Memory Usage", .str (toFixed1 (mean [(90 : ℚ), 95, 88])), 85, "exceeds",
        some "%", "test-source"⟩ : Violation).value =
      .str (toFixed1 (mean [(90 : ℚ), 95, 88])) ∧
    (⟨"Memory Usage", .str (toFixed1 (mean [(90 : ℚ), 95, 88])), 85, "exceeds",
        some "%", "test-source"⟩ : Violation).value ≠ .num 91 :=
  have h := (violation_value_forms ⟨some 100, none, 15, [], [90, 95, 88], []⟩
    "test-source" defaultThresholds
    ⟨"Memory Usage", .str (toFixed1 (mean [(90 : ℚ), 95, 88])), 85, "exceeds",
      some "%", "test-source"⟩
    (by rw [checkThresholds_scenario] ; simp)).1 rfl
  ⟨h.1, h.2 91⟩

theorem testSearch_iff (toks : List PatTok) (cs : List Char) :
    testSearch toks cs = true ↔ ∃ n, matchToksFrom toks (cs.drop n) = true := by
  induction cs with
  | nil =>
    constructor
    · intro h
      exact ⟨0, h⟩
    · rintro ⟨n, h⟩
      simpa using h
  | cons c cs ih =>
    simp only [testSearch, Bool.or_eq_true, ih]
    constructor
    · rintro (h | ⟨n, h⟩)
      · exact ⟨0, h⟩
      · exact ⟨n + 1, h⟩
    · rintro ⟨n, h⟩
      cases n with
      | zero => exact Or.inl h
      | succ n => exact Or.inr ⟨n, h⟩

/-- Claim C7: classification returns true iff at least one configured
pattern matches somewhere in the message (each configured pattern matching
case-insensitively by construction), and permuting the pattern list never
changes the outcome. -/
theorem classify_spec (m : String) (ps ps2 : List Pattern) (hperm : ps.Perm ps2) :
    (classify m ps = true ↔ ∃ p ∈ ps, ∃ n, matchToksFrom p.toks (m.data.drop n) = true) ∧
    classify m ps = classify m ps2 := by
  constructor
  · unfold classify testPat
    rw [List.any_eq_true]
    constructor
    · rintro ⟨p, hp, h⟩
      exact ⟨p, hp, (testSearch_iff p.toks m.data).1 h⟩
    · rintro ⟨p, hp, n, h⟩
      exact ⟨p, hp, (testSearch_iff p.toks m.data).2 ⟨n, h⟩⟩
  · have hiff : classify m ps = true ↔ classify m ps2 = true := by
      unfold classify
      rw [List.any_eq_true, List.any_eq_true]
      exact ⟨fun ⟨p, hp, h⟩ => ⟨p, hperm.mem_iff.1 hp, h⟩,
        fun ⟨p, hp, h⟩ => ⟨p, hperm.mem_iff.2 hp, h⟩⟩
    cases ha : classify m ps <;> cases hb : classify m ps2 <;> simp_all

/-- Witness for `classify_spec` on `"ERROR: Database connection failed"`
with the first two configured patterns and their transposition. -/
theorem classify_spec_witness :
    (classify "ERROR: Database connection failed"
        [⟨[.lit "error".data]⟩, ⟨[.lit "fatal".data]⟩] = true ↔
      ∃ p ∈ [(⟨[.lit "error".data]⟩ : Pattern), ⟨[.lit "fatal".data]⟩], ∃ n,
        matchToksFrom p.toks ("ERROR: Database connection failed".data.drop n) = true) ∧
    classify "ERROR: Database connection failed"
        [⟨[.lit "error".data]⟩, ⟨[.lit "fatal".data]⟩] =
      classify "ERROR: Database connection failed"
        [⟨[.lit "fatal".data]⟩, ⟨[.lit "error".data]⟩] :=
  classify_spec "ERROR: Database connection failed"
    [⟨[.lit "error".data]⟩, ⟨[.lit "fatal".data]⟩]
    [⟨[.lit "fatal".data]⟩, ⟨[.lit "error".data]⟩]
    (List.Perm.swap _ _ _)

/-- Claim C6: `isInCooldown` is false for a category never recorded; with a
recorded (positive-clock) instant it is true iff strictly less than
`cooldownMinutes` has elapsed; immediately after `recordAlert` it is true
(for a positive cooldown), and once the cooldown duration has elapsed it is
false again. -/
theorem isInCooldown_spec (c now last t0 : ℤ) (st : AlertServiceState)
    (cat : String) (hc : 0 < c) (ht0 : 0 < t0) :
    (st.lastAlertTimes.lookup cat = none → isInCooldown c now st cat = false) ∧
    (st.lastAlertTimes.lookup cat = some last → 0 < last →
      (isInCooldown c now st cat = true ↔ now - last < c * 60 * 1000)) ∧
    isInCooldown c t0 (recordAlert t0 st cat) cat = true ∧
    (t0 + c * 60 * 1000 ≤ now → isInCooldown c now (recordAlert t0 st cat) cat = false) := by
  have hlk : (recordAlert t0 st cat).lastAlertTimes.lookup cat = some t0 := by
    simp [recordAlert, List.lookup]
  refine ⟨fun h => ?_, fun h hpos => ?_, ?_, fun h => ?_⟩
  · simp [isInCooldown, h]
  · simp [isInCooldown, h, show last ≠ 0 by omega]
  · have hms : (0 : ℤ) < c * 60 * 1000 := by positivity
    simp [isInCooldown, hlk, show t0 ≠ 0 by omega]
    omega
  · simp [isInCooldown, hlk, show t0 ≠ 0 by omega]
    omega

/-- Witness for `isInCooldown_spec`: cooldown 30 minutes, record at clock
1000; queried never-recorded, immediately after, and 30 minutes later. -/
theorem isInCooldown_spec_witness :
    isInCooldown 30 5000 ⟨[]⟩ "errors" = false ∧
    isInCooldown 30 1000 (recordAlert 1000 ⟨[]⟩ "errors") "errors" = true ∧
    isInCooldown 30 2801000 (recordAlert 1000 ⟨[]⟩ "errors") "errors" = false :=
  ⟨(isInCooldown_spec 30 5000 1 1000 ⟨[]⟩ "errors" (by norm_num) (by norm_num)).1 rfl,
   (isInCooldown_spec 30 1000 1 1000 ⟨[]⟩ "errors" (by norm_num) (by norm_num)).2.2.1,
   (isInCooldown_spec 30 2801000 1 1000 ⟨[]⟩ "errors" (by norm_num)
      (by norm_num)).2.2.2 (by norm_num)⟩

/-- Claim C5 counterexample: with an empty cooldown map, a failing SNS
transport makes `sendAlert` propagate the failure with the state unchanged
— the category was never recorded (`lookup` is still `none`) and is *not*
in cooldown afterwards, contradicting "the cooldown … has already been
recorded before the transport calls complete, so the category is suppressed
for the full window". -/
theorem sendAlert_failure_counterexample :
    sendAlert 30 1000 false true ⟨[]⟩ "threshold" = .error ("sns", ⟨[]⟩) ∧
    (⟨[]⟩ : AlertServiceState).lastAlertTimes.lookup "threshold" = none ∧
    isInCooldown 30 1000 ⟨[]⟩ "threshold" = false :=
  ⟨rfl, rfl, rfl⟩

/-- Claim C5 (amended): when a transport call (SNS or email) fails, the
failure is propagated to the caller, but the cooldown is *not* recorded —
`recordAlert` runs only after both transport calls succeed — so the failing
category's state is left unchanged and it is not suppressed. -/
theorem sendAlert_transport_failure (c now : ℤ) (st : AlertServiceState)
    (cat : String) (eOk : Bool) (h : isInCooldown c now st cat = false) :
    sendAlert c now false eOk st cat = .error ("sns", st) ∧
    sendAlert c now true false st cat = .error ("email", st) := by
  constructor <;> simp [sendAlert, h]

/-- Witness for `sendAlert_transport_failure` with an empty cooldown map. -/
theorem sendAlert_transport_failure_witness :
    sendAlert 30 1000 false true ⟨[]⟩ "errors" = .error ("sns", ⟨[]⟩) ∧
    sendAlert 30 1000 true false ⟨[]⟩ "errors" = .error ("email", ⟨[]⟩) :=
  sendAlert_transport_failure 30 1000 ⟨[]⟩ "errors" true rfl

/-- Claim C8: analyzing an empty record sequence, for any source, yields no
classified errors, no violations, and an all-zero metrics accumulator with
empty sample sequences — with no exception (the line path returns `.ok`). -/
theorem analyze_empty_records (lg src : String) (cfg : Thresholds) (now : ℤ) :
    (processLogEvents [] lg cfg).errors = [] ∧
    (processLogEvents [] lg cfg).metrics.totalEvents = some 0 ∧
    (processLogEvents [] lg cfg).metrics.errorCount = 0 ∧
    (processLogEvents [] lg cfg).metrics.responseTimes = [] ∧
    (processLogEvents [] lg cfg).metrics.memoryUsage = [] ∧
    (processLogEvents [] lg cfg).metrics.statusCodes = [] ∧
    (processLogEvents [] lg cfg).violations = [] ∧
    processLogLines [] src cfg now = .ok ⟨[], ⟨none, some 0, 0, [], [], []⟩, []⟩ :=
  ⟨rfl, rfl, rfl, rfl, rfl, rfl, rfl, rfl⟩

theorem truncate500_length_le (s : String) : (truncate500 s).length ≤ 500 := by
  simp only [truncate500, String.length, List.length_take]
  omega

theorem processEvents_msg_bound (events : List LogEvent) (lg : String)
    (acc : List CWError × Metrics)
    (hacc : ∀ e ∈ acc.1, e.message.length ≤ 500) :
    ∀ e ∈ (events.foldl (processEventsStep lg) acc).1, e.message.length ≤ 500 := by
  induction events generalizing acc with
  | nil => exact hacc
  | cons ev evs ih =>
    rw [List.foldl_cons]
    apply ih
    intro e he
    unfold processEventsStep at he
    by_cases hcl : classify ev.message errorPatterns = true
    · simp only [hcl, if_true] at he
      rcases List.mem_append.1 he with h | h
      · exact hacc e h
      · rw [List.mem_singleton] at h
        subst h
        exact truncate500_length_le _
    · simp only [hcl, if_false] at he
      exact hacc e he

theorem processLines_msg_bound (lines : List String) (src : String) (now : ℤ)
    (acc : List S3Error × Metrics)
    (hacc : ∀ e ∈ acc.1, e.message.length ≤ 500) :
    ∀ r, lines.foldlM (processLinesStep src now) acc = .ok r →
      ∀ e ∈ r.1, e.message.length ≤ 500 := by
  induction lines generalizing acc with
  | nil =>
    intro r hr
    cases hr
    exact hacc
  | cons l ls ih =>
    intro r hr
    rw [List.foldlM_cons] at hr
    cases hstep : processLinesStep src now acc l with
    | error err =>
      rw [hstep] at hr
      simp [Bind.bind, Except.bind] at hr
    | ok acc2 =>
      rw [hstep] at hr
      simp only [Bind.bind, Except.bind] at hr
      refine ih acc2 ?_ r hr
      unfold processLinesStep at hstep
      by_cases hcl : classify l errorPatterns = true
      · simp only [hcl, if_true] at hstep
        cases hts : extractTimestamp l with
        | error err => rw [hts] at hstep; cases hstep
        | ok ts =>
          rw [hts] at hstep
          cases hstep
          intro e he
          rcases List.mem_append.1 he with h | h
          · exact hacc e h
          · rw [List.mem_singleton] at h
            subst h
            exact truncate500_length_le _
      · simp only [hcl, if_false] at hstep
        cases hstep
        exact hacc

/-- Claim C9: every classified error produced by batch analysis — from
CloudWatch events or from S3 log lines — has a message of at most 500
characters, whatever the length of the original log message. -/
theorem classified_message_bounded (events : List LogEvent) (lg : String)
    (lines : List String) (src : String) (cfg : Thresholds) (now : ℤ) :
    (∀ e ∈ (processLogEvents events lg cfg).errors, e.message.length ≤ 500) ∧
    (∀ res, processLogLines lines src cfg now = .ok res →
      ∀ e ∈ res.errors, e.message.length ≤ 500) := by
  constructor
  · intro e he
    exact processEvents_msg_bound events lg _ (by simp) e he
  · intro res hres e he
    unfold processLogLines at hres
    dsimp only at hres
    cases hfold : lines.foldlM (processLinesStep src now)
        ([], ⟨none, some lines.length, 0, [], [], []⟩) with
    | error err => rw [hfold] at hres; cases hres
    | ok r =>
      rw [hfold] at hres
      cases hres
      exact processLines_msg_bound lines src now _ (by simp) r hfold e he

/-- Witness for `classified_message_bounded` on the one-record batch
`["ERROR: boom"]` through both analysis paths. -/
theorem classified_message_bounded_witness :
    (truncate500 "ERROR: boom").length ≤ 500 ∧
    (⟨42, "src", truncate500 "ERROR: boom"⟩ : S3Error).message.length ≤ 500 :=
  ⟨(classified_message_bounded [⟨0, "ERROR: boom"⟩] "lg" ["ERROR: boom"] "src"
      defaultThresholds 42).1
      ⟨0, "lg", truncate500 "ERROR: boom", "cloudwatch"⟩ (by decide),
   (classified_message_bounded [⟨0, "ERROR: boom"⟩] "lg" ["ERROR: boom"] "src"
      defaultThresholds 42).2
      ⟨[⟨42, "src", truncate500 "ERROR: boom"⟩], ⟨none, some 1, 1, [], [], []⟩, []⟩ rfl
      ⟨42, "src", truncate500 "ERROR: boom"⟩ (by decide)⟩

end LogAnalyzer
